import Mathlib

/-!
Verification model of the OpenLogin orchestrator
(`packages/openlogin/src/OpenLogin.ts` of the OpenLoginSdk monorepo).

The orchestrator class is embedded as pure Lean functions: the in-memory
session state, the browser storage adapter and the session-store network
calls become explicit values and oracles passed to each operation, and
each method of the class becomes a function returning its new state,
storage and outcome.  External collaborators that live elsewhere in the
monorepo (the URL utilities, the network constants of openlogin-utils)
are modelled from the specification and marked as such in their doc
comments.
-/

/-- JavaScript truthiness of an optional string: `undefined` and the empty
string are falsy, every other string is truthy. -/
def truthyStr : Option String → Bool
  | none => false
  | some s => !(s == "")

/-- The browser storage adapter (`BrowserStorage` of openlogin-utils, not
under src/) is modelled as a list of key-value pairs; a `set` prepends and
`get` returns the most recent binding. -/
abbrev Storage := List (String × String)

/-- Read a key from the storage adapter. -/
def storageGet (st : Storage) (k : String) : Option String :=
  match st with
  | [] => none
  | (k2, v) :: rest => if k2 = k then some v else storageGet rest k

/-- Write a key into the storage adapter. -/
def storageSet (st : Storage) (k v : String) : Storage := (k, v) :: st

/-- `OpenloginUserInfo` of openlogin-utils, with exactly the fields the
orchestrator writes in `logout` (lines 169-182 of OpenLogin.ts). -/
structure OpenloginUserInfo where
  name : String
  profileImage : String
  dappShare : String
  idToken : String
  oAuthIdToken : String
  oAuthAccessToken : String
  appState : String
  email : String
  verifier : String
  verifierId : String
  aggregateVerifier : String
  typeOfLogin : String
  deriving DecidableEq, Repr

/-- `OpenloginSessionData`, the sparse in-memory state of the orchestrator:
each field may be absent (`none`), mirroring a TypeScript partial record.
Fields are the ones OpenLogin.ts reads or writes. -/
structure OpenloginSessionData where
  privKey : Option String := none
  coreKitKey : Option String := none
  coreKitEd25519PrivKey : Option String := none
  ed25519PrivKey : Option String := none
  walletKey : Option String := none
  oAuthPrivateKey : Option String := none
  tKey : Option String := none
  userInfo : Option OpenloginUserInfo := none
  deriving DecidableEq, Repr

/-- `updateState` (OpenLogin.ts line 226-228): spread merge
`\x7b ...this.state, ...data \x7d` — a field present in `data` overrides the
field of the state, an absent field keeps it. -/
def updateState (st data : OpenloginSessionData) : OpenloginSessionData :=
  { privKey := data.privKey.orElse fun _ => st.privKey
    coreKitKey := data.coreKitKey.orElse fun _ => st.coreKitKey
    coreKitEd25519PrivKey := data.coreKitEd25519PrivKey.orElse fun _ => st.coreKitEd25519PrivKey
    ed25519PrivKey := data.ed25519PrivKey.orElse fun _ => st.ed25519PrivKey
    walletKey := data.walletKey.orElse fun _ => st.walletKey
    oAuthPrivateKey := data.oAuthPrivateKey.orElse fun _ => st.oAuthPrivateKey
    tKey := data.tKey.orElse fun _ => st.tKey
    userInfo := data.userInfo.orElse fun _ => st.userInfo }

/-- JavaScript `String.prototype.padStart` with a one-character pad: when the
string already has at least the target length it is returned unchanged,
otherwise copies of the pad character are prepended up to the target. -/
def jsPadStart (s : String) (targetLength : Nat) (pad : Char) : String :=
  if targetLength ≤ s.length then s
  else String.mk (List.replicate (targetLength - s.length) pad ++ s.data)

namespace OpenLogin

/-- The `privKey` getter (OpenLogin.ts lines 67-69):
`this.state.privKey ? this.state.privKey.padStart(64, "0") : ""`. -/
def privKey (st : OpenloginSessionData) : String :=
  if truthyStr st.privKey then jsPadStart (st.privKey.getD "") 64 '0' else ""

/-- The `coreKitKey` getter (OpenLogin.ts lines 71-73). -/
def coreKitKey (st : OpenloginSessionData) : String :=
  if truthyStr st.coreKitKey then jsPadStart (st.coreKitKey.getD "") 64 '0' else ""

/-- `getUserInfo` (OpenLogin.ts lines 188-193): returns the user-info record
when the padded private-key accessor is truthy, throws otherwise. -/
def getUserInfo (st : OpenloginSessionData) : Except String (Option OpenloginUserInfo) :=
  if privKey st = "" then Except.error "user should be logged in to fetch userInfo"
  else Except.ok st.userInfo

end OpenLogin

namespace OPENLOGIN_NETWORK

/-- Modelled from the spec: the network identifiers of openlogin-utils
(packages/openlogin-utils, not under src/), a fixed enumeration of named
networks. The spec and OpenLogin.ts name seven of them. -/
def MAINNET : String := "mainnet"

/-- Modelled from the spec: see `OPENLOGIN_NETWORK.MAINNET`. -/
def TESTNET : String := "testnet"

/-- Modelled from the spec: see `OPENLOGIN_NETWORK.MAINNET`. -/
def CYAN : String := "cyan"

/-- Modelled from the spec: see `OPENLOGIN_NETWORK.MAINNET`. -/
def AQUA : String := "aqua"

/-- Modelled from the spec: see `OPENLOGIN_NETWORK.MAINNET`. -/
def CELESTE : String := "celeste"

/-- Modelled from the spec: see `OPENLOGIN_NETWORK.MAINNET`. -/
def SK_TESTNET : String := "sk_testnet"

/-- Modelled from the spec: see `OPENLOGIN_NETWORK.MAINNET`. -/
def DEVELOPMENT : String := "development"

end OPENLOGIN_NETWORK

namespace UX_MODE

/-- Modelled from the spec: the UX mode constants of openlogin-utils (not
under src/); the spec gives the two modes as redirect and popup. -/
def REDIRECT : String := "redirect"

/-- Modelled from the spec: see `UX_MODE.REDIRECT`. -/
def POPUP : String := "popup"

end UX_MODE

/-- `OpenLoginOptions` of openlogin-utils, restricted to the fields
OpenLogin.ts reads or writes; optional fields are `Option` values so that
the JavaScript truthiness checks of the constructor can be stated. -/
structure OpenLoginOptions where
  clientId : String := ""
  network : Option String := none
  sdkUrl : Option String := none
  redirectUrl : Option String := none
  uxMode : Option String := none
  replaceUrlOnRedirect : Option Bool := none
  originData : Option (List (String × String)) := none
  whiteLabel : Option (List (String × String)) := none
  loginConfig : Option (List (String × String)) := none
  storageServerUrl : Option String := none
  storageKey : Option String := none
  webauthnTransports : Option (List String) := none
  sessionTime : Option Nat := none
  sessionNamespace : Option String := none
  deriving DecidableEq, Repr

namespace OpenLogin

/-- The network-to-URL derivation chain of the constructor
(OpenLogin.ts lines 29-45): when `sdkUrl` is falsy, compare `network`
against each named network in order and set the matching well-known URL. -/
def deriveSdkUrl (o : OpenLoginOptions) : OpenLoginOptions :=
  if truthyStr o.sdkUrl then o
  else if o.network = some OPENLOGIN_NETWORK.MAINNET then
    { o with sdkUrl := some "https://app.openlogin.com" }
  else if o.network = some OPENLOGIN_NETWORK.CYAN then
    { o with sdkUrl := some "https://cyan.openlogin.com" }
  else if o.network = some OPENLOGIN_NETWORK.TESTNET then
    { o with sdkUrl := some "https://beta.openlogin.com" }
  else if o.network = some OPENLOGIN_NETWORK.SK_TESTNET then
    { o with sdkUrl := some "https://beta-sk.openlogin.com" }
  else if o.network = some OPENLOGIN_NETWORK.CELESTE then
    { o with sdkUrl := some "https://celeste.openlogin.com" }
  else if o.network = some OPENLOGIN_NETWORK.AQUA then
    { o with sdkUrl := some "https://aqua.openlogin.com" }
  else if o.network = some OPENLOGIN_NETWORK.DEVELOPMENT then
    { o with sdkUrl := some "http://localhost:3000" }
  else o

/-- Default for `redirectUrl` (OpenLogin.ts lines 50-52): the current page
URL, supplied here as the `pageUrl` argument of the constructor model. -/
def fillRedirectUrl (pageUrl : String) (o : OpenLoginOptions) : OpenLoginOptions :=
  if truthyStr o.redirectUrl then o else { o with redirectUrl := some pageUrl }

/-- Default for `uxMode` (OpenLogin.ts line 54). -/
def fillUxMode (o : OpenLoginOptions) : OpenLoginOptions :=
  if truthyStr o.uxMode then o else { o with uxMode := some UX_MODE.REDIRECT }

/-- Default for `replaceUrlOnRedirect` (OpenLogin.ts line 55); in
JavaScript, `false` is falsy, so an explicit `false` is also overwritten. -/
def fillReplaceUrlOnRedirect (o : OpenLoginOptions) : OpenLoginOptions :=
  if o.replaceUrlOnRedirect = some true then o else { o with replaceUrlOnRedirect := some true }

/-- Default for `originData` (OpenLogin.ts line 56): a singleton map from
the page origin (supplied as an argument) to the empty string. -/
def fillOriginData (origin : String) (o : OpenLoginOptions) : OpenLoginOptions :=
  if o.originData.isSome then o else { o with originData := some [(origin, "")] }

/-- Default for `whiteLabel` (OpenLogin.ts line 57): the empty record. -/
def fillWhiteLabel (o : OpenLoginOptions) : OpenLoginOptions :=
  if o.whiteLabel.isSome then o else { o with whiteLabel := some [] }

/-- Default for `loginConfig` (OpenLogin.ts line 58): the empty record. -/
def fillLoginConfig (o : OpenLoginOptions) : OpenLoginOptions :=
  if o.loginConfig.isSome then o else { o with loginConfig := some [] }

/-- Default for `storageServerUrl` (OpenLogin.ts line 59). -/
def fillStorageServerUrl (o : OpenLoginOptions) : OpenLoginOptions :=
  if truthyStr o.storageServerUrl then o
  else { o with storageServerUrl := some "https://broadcast-server.tor.us" }

/-- Default for `storageKey` (OpenLogin.ts line 60). -/
def fillStorageKey (o : OpenLoginOptions) : OpenLoginOptions :=
  if truthyStr o.storageKey then o else { o with storageKey := some "local" }

/-- Default for `webauthnTransports` (OpenLogin.ts line 61). -/
def fillWebauthnTransports (o : OpenLoginOptions) : OpenLoginOptions :=
  if o.webauthnTransports.isSome then o else { o with webauthnTransports := some ["internal"] }

/-- Default for `sessionTime` (OpenLogin.ts line 62); in JavaScript, `0` is
falsy, so a zero session time is also overwritten with 86400. -/
def fillSessionTime (o : OpenLoginOptions) : OpenLoginOptions :=
  if o.sessionTime.getD 0 ≠ 0 then o else { o with sessionTime := some 86400 }

/-- The defaulting block of the constructor (OpenLogin.ts lines 50-62),
applied in source order. -/
def fillDefaults (pageUrl origin : String) (o : OpenLoginOptions) : OpenLoginOptions :=
  fillSessionTime (fillWebauthnTransports (fillStorageKey (fillStorageServerUrl
    (fillLoginConfig (fillWhiteLabel (fillOriginData origin
      (fillReplaceUrlOnRedirect (fillUxMode (fillRedirectUrl pageUrl o)))))))))

/-- The constructor (OpenLogin.ts lines 28-65): derive `sdkUrl` from the
named network when absent, throw when still unresolved, then fill the
remaining defaults and store the options. The current page URL and origin
(read from `window.location` in the source) are explicit arguments. -/
def construct (o : OpenLoginOptions) (pageUrl origin : String) :
    Except String OpenLoginOptions :=
  let o2 := deriveSdkUrl o
  if truthyStr o2.sdkUrl then Except.ok (fillDefaults pageUrl origin o2)
  else Except.error "unspecified network and sdkUrl"

end OpenLogin

/-- The correspondence of named networks to well-known URLs as the spec
states it, used to quantify over the supported networks. -/
def networkUrlMap : List (String × String) :=
  [(OPENLOGIN_NETWORK.MAINNET, "https://app.openlogin.com"),
   (OPENLOGIN_NETWORK.CYAN, "https://cyan.openlogin.com"),
   (OPENLOGIN_NETWORK.TESTNET, "https://beta.openlogin.com"),
   (OPENLOGIN_NETWORK.SK_TESTNET, "https://beta-sk.openlogin.com"),
   (OPENLOGIN_NETWORK.CELESTE, "https://celeste.openlogin.com"),
   (OPENLOGIN_NETWORK.AQUA, "https://aqua.openlogin.com"),
   (OPENLOGIN_NETWORK.DEVELOPMENT, "http://localhost:3000")]

/-- The recognized named networks of the constructor. -/
def recognizedNetworks : List String := networkUrlMap.map Prod.fst

/-- All user-info fields set to the empty string, exactly the record
literal `logout` installs (OpenLogin.ts lines 169-182). -/
def emptyUserInfo : OpenloginUserInfo :=
  { name := "", profileImage := "", dappShare := "", idToken := "",
    oAuthIdToken := "", oAuthAccessToken := "", appState := "", email := "",
    verifier := "", verifierId := "", aggregateVerifier := "", typeOfLogin := "" }

/-- The record `logout` passes to `updateState` (OpenLogin.ts lines
161-183): every field present and set to the empty value. -/
def logoutResetData : OpenloginSessionData :=
  { privKey := some "", coreKitKey := some "", coreKitEd25519PrivKey := some "",
    ed25519PrivKey := some "", walletKey := some "", oAuthPrivateKey := some "",
    tKey := some "", userInfo := some emptyUserInfo }

namespace OpenLogin

/-- `_authorizeSession` (OpenLogin.ts lines 215-224): return empty data
when no session key is set; otherwise call `authorizeSession` on the
session manager — modelled by the `authorize` oracle applied to the key —
and, on failure, log and return empty data instead of rethrowing. -/
def _authorizeSession (sessionKey : Option String)
    (authorize : String → Except String OpenloginSessionData) : OpenloginSessionData :=
  match sessionKey with
  | none => {}
  | some k =>
    if k = "" then {}
    else
      match authorize k with
      | Except.ok result => result
      | Except.error _ => {}

/-- The session key active after the hash-parameter step of `init`
(OpenLogin.ts lines 79-98): the hash-delivered key when truthy, otherwise
the key recovered from storage. -/
def initActiveKey (storage : Storage) (hashSessionId : Option String) : Option String :=
  if truthyStr hashSessionId then hashSessionId else storageGet storage "sessionId"

/-- The storage contents after the hash-parameter step of `init`
(OpenLogin.ts lines 95-98): a truthy hash-delivered key is persisted under
sessionId, otherwise storage is untouched. -/
def initStorageAfter (storage : Storage) (hashSessionId : Option String) : Storage :=
  if truthyStr hashSessionId then storageSet storage "sessionId" (hashSessionId.getD "")
  else storage

/-- `init` (OpenLogin.ts lines 75-106). The storage adapter content, the
sessionId hash-fragment parameter parsed by `getHashQueryParams` (URL
utility of this repository, not under src/ — its result is an input here)
and the session-store `authorizeSession` network call are explicit inputs.
The session manager construction, the testnet console warning and the
storage-key namespacing have no bearing on state, storage content or key
and are not represented. Returns the state, the storage and the session
key of the manager; the `Except` layer records that no branch throws. -/
def init (storage : Storage) (hashSessionId : Option String)
    (authorize : String → Except String OpenloginSessionData)
    (st : OpenloginSessionData) :
    Except String (OpenloginSessionData × Storage × Option String) :=
  let sessionKey := initActiveKey storage hashSessionId
  let storage2 := initStorageAfter storage hashSessionId
  if truthyStr sessionKey then
    Except.ok (updateState st (_authorizeSession sessionKey authorize), storage2, sessionKey)
  else
    Except.ok (st, storage2, sessionKey)

/-- `logout` (OpenLogin.ts lines 158-186): throw when no session key is
set; otherwise await `invalidateSession` (outcome supplied by the
`invalidate` input — a failure propagates), then merge the all-empty reset
record into state and clear the persisted sessionId. The boolean of the
result records whether `invalidateSession` was called. -/
def logout (sessionKey : Option String) (invalidate : Except String Unit)
    (st : OpenloginSessionData) (storage : Storage) :
    Except String Unit × OpenloginSessionData × Storage × Bool :=
  if truthyStr sessionKey then
    match invalidate with
    | Except.error e => (Except.error e, st, storage, true)
    | Except.ok _ =>
      (Except.ok (), updateState st logoutResetData, storageSet storage "sessionId" "", true)
  else
    (Except.error "User not logged in", st, storage, false)

end OpenLogin

/-- `LoginParams` of openlogin-utils restricted to the fields OpenLogin.ts
manipulates: the mandatory provider and the optional redirect override. -/
structure LoginParams where
  loginProvider : Option String := none
  redirectUrl : Option String := none
  deriving DecidableEq, Repr

/-- The parameter merge of `login` (OpenLogin.ts lines 115-123): spread of
the default redirect URL then the caller parameters, caller values taking
precedence. -/
def mergeLoginParams (o : OpenLoginOptions) (p : LoginParams) : LoginParams :=
  { loginProvider := p.loginProvider
    redirectUrl := p.redirectUrl.orElse fun _ => o.redirectUrl }

/-- Modelled from the spec: serialization of hash-fragment parameters as a
query string, one name=value pair joined by ampersands. -/
def joinHashParams : List (String × String) → String
  | [] => ""
  | [(n, v)] => n ++ "=" ++ v
  | (n, v) :: rest => n ++ "=" ++ v ++ "&" ++ joinHashParams rest

/-- Modelled from the spec: `constructURL` of the URL utilities
(packages/openlogin/src/utils.ts, not under src/) — build a URL from a
base plus hash-fragment parameters. -/
def constructURL (baseURL : String) (hash : List (String × String)) : String :=
  baseURL ++ "#" ++ joinHashParams hash

/-- The observable side effects of a `login` call, in order: the
login-request creation on the session store, a full-page navigation, or a
popup-window opening. -/
inductive LoginStep where
  | createSession (sessionId : String) (payload : LoginParams)
  | navigate (url : String)
  | openPopup (url : String)
  deriving DecidableEq, Repr

/-- How the promise returned by `login` behaves: a synchronous throw (a
rejected promise), a settled resolution with an optional private-key
value (`none` renders the `return undefined` of the redirect branch), or
a pending promise awaiting popup events. -/
inductive LoginOutcome where
  | thrown (msg : String)
  | resolved (value : Option String)
  | pendingPopup
  deriving DecidableEq, Repr

namespace OpenLogin

/-- `login` (OpenLogin.ts lines 108-156) up to its dispatch on UX mode.
The randomly generated login-request key of `getLoginId` (line 202) is the
`loginId` input; `sessionManagerReady` tells whether `init` ran (line
196). The popup branch opens the popup and leaves the promise pending on
external events, which is where this model stops. -/
def login (opts : OpenLoginOptions) (params : Option LoginParams)
    (loginId : String) (sessionManagerReady : Bool) :
    LoginOutcome × List LoginStep :=
  match params with
  | none => (LoginOutcome.thrown "Please pass loginProvider in params", [])
  | some p =>
    if truthyStr p.loginProvider then
      if sessionManagerReady then
        let loginParams := mergeLoginParams opts p
        let steps := [LoginStep.createSession loginId loginParams]
        if opts.uxMode = some UX_MODE.REDIRECT then
          let loginUrl := constructURL (opts.sdkUrl.getD "undefined" ++ "/start")
            [("loginId", loginId)]
          (LoginOutcome.resolved none, steps ++ [LoginStep.navigate loginUrl])
        else
          let loginUrl := constructURL (opts.sdkUrl.getD "undefined" ++ "/popup-window")
            [("loginId", loginId)]
          (LoginOutcome.pendingPopup, steps ++ [LoginStep.openPopup loginUrl])
      else
        (LoginOutcome.thrown "session manager not initialized. please call init first", [])
    else
      (LoginOutcome.thrown "Please pass loginProvider in params", [])

end OpenLogin

/-- A concrete configuration produced by the constructor from a minimal
mainnet input, used for concrete evaluations of redirect-mode login. -/
def redirectExampleOptions : OpenLoginOptions :=
  (OpenLogin.construct { clientId := "client-1", network := some OPENLOGIN_NETWORK.MAINNET }
    "https://dapp.example/page" "https://dapp.example").toOption.getD {}

theorem jsPadStart_length (s : String) (n : Nat) (c : Char) :
    (jsPadStart s n c).length = max s.length n := by
  unfold jsPadStart
  split
  · next h => exact (Nat.max_eq_left h).symm
  · next h =>
    have hs : s.length = s.data.length := rfl
    rw [String.length_mk, List.length_append, List.length_replicate]
    omega

theorem jsPadStart_eq (s : String) (n : Nat) (c : Char) :
    jsPadStart s n c = String.mk (List.replicate (n - s.length) c ++ s.data) := by
  unfold jsPadStart
  split
  · next h =>
    have h0 : n - s.length = 0 := Nat.sub_eq_zero_of_le h
    rw [h0]
    rfl
  · rfl

@[simp] theorem truthyStr_none : truthyStr none = false := rfl

@[simp] theorem truthyStr_some (s : String) : truthyStr (some s) = !(s == "") := rfl

theorem updateState_empty (st : OpenloginSessionData) : updateState st {} = st := rfl

theorem updateState_reset (st : OpenloginSessionData) :
    updateState st logoutResetData = logoutResetData := rfl

theorem privKey_ne_empty (st : OpenloginSessionData) (s : String)
    (h : st.privKey = some s) (hs : s ≠ "") : OpenLogin.privKey st ≠ "" := by
  have htr : truthyStr st.privKey = true := by
    rw [h]; simp [hs]
  intro hcon
  rw [OpenLogin.privKey, htr] at hcon
  simp only [if_pos] at hcon
  have hlen := congrArg String.length hcon
  rw [jsPadStart_length, String.length_empty] at hlen
  omega

theorem fillRedirectUrl_sdkUrl (p : String) (o : OpenLoginOptions) :
    (OpenLogin.fillRedirectUrl p o).sdkUrl = o.sdkUrl := by
  unfold OpenLogin.fillRedirectUrl; split <;> rfl

theorem fillUxMode_sdkUrl (o : OpenLoginOptions) :
    (OpenLogin.fillUxMode o).sdkUrl = o.sdkUrl := by
  unfold OpenLogin.fillUxMode; split <;> rfl

theorem fillReplaceUrlOnRedirect_sdkUrl (o : OpenLoginOptions) :
    (OpenLogin.fillReplaceUrlOnRedirect o).sdkUrl = o.sdkUrl := by
  unfold OpenLogin.fillReplaceUrlOnRedirect; split <;> rfl

theorem fillOriginData_sdkUrl (g : String) (o : OpenLoginOptions) :
    (OpenLogin.fillOriginData g o).sdkUrl = o.sdkUrl := by
  unfold OpenLogin.fillOriginData; split <;> rfl

theorem fillWhiteLabel_sdkUrl (o : OpenLoginOptions) :
    (OpenLogin.fillWhiteLabel o).sdkUrl = o.sdkUrl := by
  unfold OpenLogin.fillWhiteLabel; split <;> rfl

theorem fillLoginConfig_sdkUrl (o : OpenLoginOptions) :
    (OpenLogin.fillLoginConfig o).sdkUrl = o.sdkUrl := by
  unfold OpenLogin.fillLoginConfig; split <;> rfl

theorem fillStorageServerUrl_sdkUrl (o : OpenLoginOptions) :
    (OpenLogin.fillStorageServerUrl o).sdkUrl = o.sdkUrl := by
  unfold OpenLogin.fillStorageServerUrl; split <;> rfl

theorem fillStorageKey_sdkUrl (o : OpenLoginOptions) :
    (OpenLogin.fillStorageKey o).sdkUrl = o.sdkUrl := by
  unfold OpenLogin.fillStorageKey; split <;> rfl

theorem fillWebauthnTransports_sdkUrl (o : OpenLoginOptions) :
    (OpenLogin.fillWebauthnTransports o).sdkUrl = o.sdkUrl := by
  unfold OpenLogin.fillWebauthnTransports; split <;> rfl

theorem fillSessionTime_sdkUrl (o : OpenLoginOptions) :
    (OpenLogin.fillSessionTime o).sdkUrl = o.sdkUrl := by
  unfold OpenLogin.fillSessionTime; split <;> rfl

theorem fillDefaults_sdkUrl (p g : String) (o : OpenLoginOptions) :
    (OpenLogin.fillDefaults p g o).sdkUrl = o.sdkUrl := by
  unfold OpenLogin.fillDefaults
  rw [fillSessionTime_sdkUrl, fillWebauthnTransports_sdkUrl, fillStorageKey_sdkUrl,
    fillStorageServerUrl_sdkUrl, fillLoginConfig_sdkUrl, fillWhiteLabel_sdkUrl,
    fillOriginData_sdkUrl, fillReplaceUrlOnRedirect_sdkUrl, fillUxMode_sdkUrl,
    fillRedirectUrl_sdkUrl]

theorem construct_eq_ok (o : OpenLoginOptions) (pageUrl origin : String)
    (h : truthyStr (OpenLogin.deriveSdkUrl o).sdkUrl = true) :
    OpenLogin.construct o pageUrl origin =
      Except.ok (OpenLogin.fillDefaults pageUrl origin (OpenLogin.deriveSdkUrl o)) := by
  unfold OpenLogin.construct
  simp [h]

/-- C4 For every configuration lacking both an explicit base service URL
(sdkUrl) and a recognized named network, construction throws a
configuration error synchronously and performs no I/O: the constructor
model returns the configuration error before any default is filled, and
being a pure function of its arguments it performs no effect. -/
theorem construct_throws_without_network (o : OpenLoginOptions) (pageUrl origin : String)
    (hsdk : truthyStr o.sdkUrl = false)
    (hnet : ∀ n ∈ recognizedNetworks, o.network ≠ some n) :
    OpenLogin.construct o pageUrl origin = Except.error "unspecified network and sdkUrl" := by
  have h1 := hnet OPENLOGIN_NETWORK.MAINNET (by decide)
  have h2 := hnet OPENLOGIN_NETWORK.CYAN (by decide)
  have h3 := hnet OPENLOGIN_NETWORK.TESTNET (by decide)
  have h4 := hnet OPENLOGIN_NETWORK.SK_TESTNET (by decide)
  have h5 := hnet OPENLOGIN_NETWORK.CELESTE (by decide)
  have h6 := hnet OPENLOGIN_NETWORK.AQUA (by decide)
  have h7 := hnet OPENLOGIN_NETWORK.DEVELOPMENT (by decide)
  have hd : OpenLogin.deriveSdkUrl o = o := by
    unfold OpenLogin.deriveSdkUrl
    simp [hsdk, h1, h2, h3, h4, h5, h6, h7]
  unfold OpenLogin.construct
  simp [hd, hsdk]

/-- C4 witness: a configuration with no sdkUrl and an unrecognized network
name is rejected by construction. -/
theorem construct_throws_without_network_witness :
    OpenLogin.construct { clientId := "c", network := some "ropsten" }
        "https://dapp.example/p" "https://dapp.example"
      = Except.error "unspecified network and sdkUrl" :=
  construct_throws_without_network _ _ _ rfl (by decide)

/-- C5 For every supported named network identifier, construction without
an explicit base service URL sets the sdkUrl of the configuration to the
well-known URL the network is mapped to (mainnet, cyan, testnet,
sk_testnet, celeste, aqua, development as listed in networkUrlMap). -/
theorem construct_derives_network_url (o : OpenLoginOptions) (pageUrl origin net url : String)
    (hsdk : truthyStr o.sdkUrl = false)
    (hnet : o.network = some net)
    (hmem : (net, url) ∈ networkUrlMap) :
    ∃ o2, OpenLogin.construct o pageUrl origin = Except.ok o2 ∧ o2.sdkUrl = some url := by
  simp only [networkUrlMap, OPENLOGIN_NETWORK.MAINNET, OPENLOGIN_NETWORK.CYAN,
    OPENLOGIN_NETWORK.TESTNET, OPENLOGIN_NETWORK.SK_TESTNET, OPENLOGIN_NETWORK.CELESTE,
    OPENLOGIN_NETWORK.AQUA, OPENLOGIN_NETWORK.DEVELOPMENT,
    List.mem_cons, List.not_mem_nil, or_false, Prod.mk.injEq] at hmem
  rcases hmem with ⟨rfl, rfl⟩ | ⟨rfl, rfl⟩ | ⟨rfl, rfl⟩ | ⟨rfl, rfl⟩ | ⟨rfl, rfl⟩ |
    ⟨rfl, rfl⟩ | ⟨rfl, rfl⟩
  all_goals
    refine ⟨_, construct_eq_ok o pageUrl origin ?_, ?_⟩
    · unfold OpenLogin.deriveSdkUrl
      rw [hnet]
      simp [hsdk, OPENLOGIN_NETWORK.MAINNET, OPENLOGIN_NETWORK.CYAN,
        OPENLOGIN_NETWORK.TESTNET, OPENLOGIN_NETWORK.SK_TESTNET, OPENLOGIN_NETWORK.CELESTE,
        OPENLOGIN_NETWORK.AQUA, OPENLOGIN_NETWORK.DEVELOPMENT]
    · rw [fillDefaults_sdkUrl]
      unfold OpenLogin.deriveSdkUrl
      rw [hnet]
      simp [hsdk, OPENLOGIN_NETWORK.MAINNET, OPENLOGIN_NETWORK.CYAN,
        OPENLOGIN_NETWORK.TESTNET, OPENLOGIN_NETWORK.SK_TESTNET, OPENLOGIN_NETWORK.CELESTE,
        OPENLOGIN_NETWORK.AQUA, OPENLOGIN_NETWORK.DEVELOPMENT]

/-- C5 witness: construction with network mainnet and no sdkUrl derives
the mainnet URL. -/
theorem construct_derives_network_url_witness :
    ("mainnet", "https://app.openlogin.com") ∈ networkUrlMap ∧
    ∃ o2, OpenLogin.construct { clientId := "c", network := some "mainnet" }
        "https://dapp.example/p" "https://dapp.example"
      = Except.ok o2 ∧ o2.sdkUrl = some "https://app.openlogin.com" :=
  ⟨by decide, construct_derives_network_url _ "https://dapp.example/p" "https://dapp.example"
    "mainnet" "https://app.openlogin.com" rfl rfl (by decide)⟩

/-- C1 For every stored or hash-delivered session key, if the session-store
authorizeSession call fails during init (network error, expired or invalid
session), init swallows the failure: it returns normally in every case
(first conjunct) and the in-memory state is returned unchanged — an empty
state stays empty (error branch); if authorizeSession succeeds, the
returned session data is merged into state (success branch). -/
theorem init_swallows_authorize_failure
    (storage : Storage) (hashSessionId : Option String)
    (authorize : String → Except String OpenloginSessionData)
    (st : OpenloginSessionData) :
    (∃ r, OpenLogin.init storage hashSessionId authorize st = Except.ok r)
  ∧ (∀ k, OpenLogin.initActiveKey storage hashSessionId = some k → k ≠ "" →
      (∀ e, authorize k = Except.error e →
        OpenLogin.init storage hashSessionId authorize st
          = Except.ok (st, OpenLogin.initStorageAfter storage hashSessionId, some k))
    ∧ (∀ d, authorize k = Except.ok d →
        OpenLogin.init storage hashSessionId authorize st
          = Except.ok (updateState st d,
              OpenLogin.initStorageAfter storage hashSessionId, some k))) := by
  constructor
  · simp only [OpenLogin.init]
    split
    · exact ⟨_, rfl⟩
    · exact ⟨_, rfl⟩
  · intro k hk hne
    constructor
    · intro e he
      simp [OpenLogin.init, hk, hne, OpenLogin._authorizeSession, he, updateState_empty]
    · intro d hd
      simp [OpenLogin.init, hk, hne, OpenLogin._authorizeSession, hd]

/-- C1 witness: a stored session key whose authorization fails with a
network error leaves init returning normally with the state unchanged. -/
theorem init_swallows_authorize_failure_witness :
    OpenLogin.init [("sessionId", "k1")] none (fun _ => Except.error "server down") {}
      = Except.ok ({}, [("sessionId", "k1")], some "k1") :=
  ((init_swallows_authorize_failure [("sessionId", "k1")] none
      (fun _ => Except.error "server down") {}).2 "k1" rfl (by decide)).1 "server down" rfl

/-- C2 counterexample: a stored private key of 65 characters is non-empty,
yet the privKey accessor returns it unchanged with length 65, not 64 —
padStart never truncates — so the accessors do not return exactly 64
characters for every non-empty stored value. -/
theorem privKey_65_chars_counterexample :
    (String.mk (List.replicate 65 'a') ≠ "")
  ∧ (OpenLogin.privKey { privKey := some (String.mk (List.replicate 65 'a')) }).length = 65
  ∧ (OpenLogin.privKey { privKey := some (String.mk (List.replicate 65 'a')) }).length ≠ 64 := by
  decide

/-- C2 amended: the privKey and coreKitKey accessors return the stored
value left-padded with zeros to width 64; for a non-empty stored value of
length at most 64 the result has exactly 64 characters and is the raw
value preceded by 64 minus length zeros, for a stored value longer than
64 characters the result is the raw value unchanged, and for an unset or
empty value the result is the empty string. -/
theorem accessors_pad_to_64 (st : OpenloginSessionData) :
    ((st.privKey = none ∨ st.privKey = some "") → OpenLogin.privKey st = "")
  ∧ (∀ s, st.privKey = some s → s ≠ "" →
      OpenLogin.privKey st = jsPadStart s 64 '0'
    ∧ (s.length ≤ 64 →
        (OpenLogin.privKey st).length = 64
      ∧ OpenLogin.privKey st = String.mk (List.replicate (64 - s.length) '0' ++ s.data))
    ∧ (64 < s.length → OpenLogin.privKey st = s))
  ∧ ((st.coreKitKey = none ∨ st.coreKitKey = some "") → OpenLogin.coreKitKey st = "")
  ∧ (∀ s, st.coreKitKey = some s → s ≠ "" →
      OpenLogin.coreKitKey st = jsPadStart s 64 '0'
    ∧ (s.length ≤ 64 →
        (OpenLogin.coreKitKey st).length = 64
      ∧ OpenLogin.coreKitKey st = String.mk (List.replicate (64 - s.length) '0' ++ s.data))
    ∧ (64 < s.length → OpenLogin.coreKitKey st = s)) := by
  refine ⟨?_, ?_, ?_, ?_⟩
  · intro h
    rcases h with h | h <;> simp [OpenLogin.privKey, h]
  · intro s hs hne
    have hacc : OpenLogin.privKey st = jsPadStart s 64 '0' := by
      simp [OpenLogin.privKey, hs, hne]
    refine ⟨hacc, ?_, ?_⟩
    · intro hle
      constructor
      · rw [hacc, jsPadStart_length]
        omega
      · rw [hacc, jsPadStart_eq]
    · intro hgt
      rw [hacc]
      unfold jsPadStart
      rw [if_pos (by omega)]
  · intro h
    rcases h with h | h <;> simp [OpenLogin.coreKitKey, h]
  · intro s hs hne
    have hacc : OpenLogin.coreKitKey st = jsPadStart s 64 '0' := by
      simp [OpenLogin.coreKitKey, hs, hne]
    refine ⟨hacc, ?_, ?_⟩
    · intro hle
      constructor
      · rw [hacc, jsPadStart_length]
        omega
      · rw [hacc, jsPadStart_eq]
    · intro hgt
      rw [hacc]
      unfold jsPadStart
      rw [if_pos (by omega)]

/-- C2 witness: a three-character stored key is padded to 64 characters,
and an unset coreKitKey yields the empty string. -/
theorem accessors_pad_to_64_witness :
    (OpenLogin.privKey { privKey := some "abc" }).length = 64
  ∧ OpenLogin.coreKitKey { privKey := some "abc" } = "" :=
  ⟨(((accessors_pad_to_64 { privKey := some "abc" }).2.1 "abc" rfl
      (by decide)).2.1 (by decide)).1,
   (accessors_pad_to_64 { privKey := some "abc" }).2.2.1 (Or.inl rfl)⟩

/-- C3 For every prior state, after a successful logout every field of the
in-memory state is present and equal to the empty string — including every
nested user-info field — and the persisted storage value under sessionId
equals the empty string. -/
theorem logout_clears_state (sessionKey : Option String) (st : OpenloginSessionData)
    (storage : Storage) (hkey : truthyStr sessionKey = true) :
    OpenLogin.logout sessionKey (Except.ok ()) st storage
      = (Except.ok (), logoutResetData, storageSet storage "sessionId" "", true)
  ∧ (logoutResetData.privKey = some "" ∧ logoutResetData.coreKitKey = some ""
    ∧ logoutResetData.coreKitEd25519PrivKey = some ""
    ∧ logoutResetData.ed25519PrivKey = some "" ∧ logoutResetData.walletKey = some ""
    ∧ logoutResetData.oAuthPrivateKey = some "" ∧ logoutResetData.tKey = some ""
    ∧ logoutResetData.userInfo = some emptyUserInfo
    ∧ emptyUserInfo.name = "" ∧ emptyUserInfo.profileImage = ""
    ∧ emptyUserInfo.dappShare = "" ∧ emptyUserInfo.idToken = ""
    ∧ emptyUserInfo.oAuthIdToken = "" ∧ emptyUserInfo.oAuthAccessToken = ""
    ∧ emptyUserInfo.appState = "" ∧ emptyUserInfo.email = ""
    ∧ emptyUserInfo.verifier = "" ∧ emptyUserInfo.verifierId = ""
    ∧ emptyUserInfo.aggregateVerifier = "" ∧ emptyUserInfo.typeOfLogin = "")
  ∧ storageGet (storageSet storage "sessionId" "") "sessionId" = some "" := by
  refine ⟨?_, by decide, rfl⟩
  simp [OpenLogin.logout, hkey, updateState_reset]

/-- C3 witness: logging out from a state holding a private key resets the
state to the all-empty record and persists an empty sessionId. -/
theorem logout_clears_state_witness :
    OpenLogin.logout (some "sess-1") (Except.ok ()) { privKey := some "aa" } []
      = (Except.ok (), logoutResetData, [("sessionId", "")], true) :=
  (logout_clears_state (some "sess-1") { privKey := some "aa" } [] rfl).1

/-- C6 For every login call whose parameters are absent or lack a truthy
loginProvider, the call fails with the invalid-argument error and the list
of performed effects is empty: no session-store call and no navigation
happened. -/
theorem login_requires_provider (opts : OpenLoginOptions) (params : Option LoginParams)
    (loginId : String) (ready : Bool)
    (h : params = none ∨ ∃ p, params = some p ∧ truthyStr p.loginProvider = false) :
    OpenLogin.login opts params loginId ready
      = (LoginOutcome.thrown "Please pass loginProvider in params", []) := by
  rcases h with rfl | ⟨p, rfl, hp⟩
  · rfl
  · simp [OpenLogin.login, hp]

/-- C6 witness: a login call with absent parameters throws the
invalid-argument error with no effects performed. -/
theorem login_requires_provider_witness :
    OpenLogin.login {} none "lid0" true
      = (LoginOutcome.thrown "Please pass loginProvider in params", []) :=
  login_requires_provider {} none "lid0" true (Or.inl rfl)

/-- C7 With no active session key, logout fails with the not-logged-in
error, does not call invalidateSession and leaves state and storage
untouched; getUserInfo fails with the not-authenticated error whenever the
stored private key is unset or empty, and returns the current user-info
record whenever it is non-empty. -/
theorem logout_and_getUserInfo_preconditions :
    (∀ (sessionKey : Option String) (invalidate : Except String Unit)
        (st : OpenloginSessionData) (storage : Storage),
        truthyStr sessionKey = false →
        OpenLogin.logout sessionKey invalidate st storage
          = (Except.error "User not logged in", st, storage, false))
  ∧ (∀ st : OpenloginSessionData, (st.privKey = none ∨ st.privKey = some "") →
        OpenLogin.getUserInfo st
          = Except.error "user should be logged in to fetch userInfo")
  ∧ (∀ (st : OpenloginSessionData) (s : String), st.privKey = some s → s ≠ "" →
        OpenLogin.getUserInfo st = Except.ok st.userInfo) := by
  refine ⟨?_, ?_, ?_⟩
  · intro sessionKey invalidate st storage h
    simp [OpenLogin.logout, h]
  · intro st h
    have hpk : OpenLogin.privKey st = "" := by
      rcases h with h | h <;> simp [OpenLogin.privKey, h]
    simp [OpenLogin.getUserInfo, hpk]
  · intro st s h hs
    have hne := privKey_ne_empty st s h hs
    simp [OpenLogin.getUserInfo, hne]

/-- C7 witness: logout without a session key returns the not-logged-in
error untouched, getUserInfo without a private key returns the
not-authenticated error, and with a private key it returns the user-info
record. -/
theorem logout_and_getUserInfo_preconditions_witness :
    OpenLogin.logout none (Except.ok ()) {} []
      = (Except.error "User not logged in", {}, [], false)
  ∧ OpenLogin.getUserInfo {} = Except.error "user should be logged in to fetch userInfo"
  ∧ OpenLogin.getUserInfo { privKey := some "ab" } = Except.ok none :=
  ⟨logout_and_getUserInfo_preconditions.1 none (Except.ok ()) {} [] rfl,
   logout_and_getUserInfo_preconditions.2.1 {} (Or.inl rfl),
   logout_and_getUserInfo_preconditions.2.2 { privKey := some "ab" } "ab" rfl (by decide)⟩

/-- C8 During init, whenever the hash-fragment parameters carry a truthy
sessionId, that value is persisted to storage under sessionId, adopted as
the active session key overriding any key recovered from storage (the
storage content is arbitrary here), and the authorization step applies the
authorize call to exactly the adopted key. -/
theorem init_adopts_hash_session (storage : Storage)
    (authorize : String → Except String OpenloginSessionData)
    (st : OpenloginSessionData) (v : String) (hv : v ≠ "") :
    OpenLogin.init storage (some v) authorize st
      = Except.ok (updateState st (OpenLogin._authorizeSession (some v) authorize),
          storageSet storage "sessionId" v, some v)
  ∧ storageGet (storageSet storage "sessionId" v) "sessionId" = some v
  ∧ OpenLogin._authorizeSession (some v) authorize
      = (match authorize v with
         | Except.ok d => d
         | Except.error _ => ({} : OpenloginSessionData)) := by
  refine ⟨?_, ?_, ?_⟩
  · simp [OpenLogin.init, OpenLogin.initActiveKey, OpenLogin.initStorageAfter, hv]
  · simp [storageGet, storageSet]
  · simp [OpenLogin._authorizeSession, hv]

/-- C8 witness: a hash-delivered key newkey overrides the stored key old,
is persisted, and becomes the session key used for authorization. -/
theorem init_adopts_hash_session_witness :
    OpenLogin.init [("sessionId", "old")] (some "newkey")
        (fun _ => Except.error "down") {}
      = Except.ok ({}, [("sessionId", "newkey"), ("sessionId", "old")], some "newkey") :=
  (init_adopts_hash_session [("sessionId", "old")] (fun _ => Except.error "down") {}
    "newkey" (by decide)).1

/-- C9 counterexample: the claim states that a redirect-mode login never
returns to the caller, that no promise settles and no result is produced.
The redirect branch of the source assigns window.location.href and then
executes return undefined (OpenLogin.ts line 132), so the promise of the
async call settles, resolved with undefined. At a concrete constructed
mainnet configuration with provider google, the call settles with the
resolution value undefined (rendered none), after the navigation step. -/
theorem login_redirect_promise_settles :
    OpenLogin.login redirectExampleOptions
        (some { loginProvider := some "google" }) "lid123" true
      = (LoginOutcome.resolved none,
         [LoginStep.createSession "lid123"
            { loginProvider := some "google",
              redirectUrl := some "https://dapp.example/page" },
          LoginStep.navigate "https://app.openlogin.com/start#loginId=lid123"]) := by
  decide

/-- C9 amended: for every redirect-mode login with a valid provider, the
constructed navigation target is the service start URL whose hash fragment
is the loginId parameter set to the key returned by the login-request
creation step, the page is navigated to that URL, and the call resolves
with undefined — no private-key result is produced (in the browser the
navigation then replaces the page context). -/
theorem login_redirect_navigates_with_loginId (opts : OpenLoginOptions) (p : LoginParams)
    (loginId : String) (hp : truthyStr p.loginProvider = true)
    (hm : opts.uxMode = some UX_MODE.REDIRECT) :
    OpenLogin.login opts (some p) loginId true
      = (LoginOutcome.resolved none,
         [LoginStep.createSession loginId (mergeLoginParams opts p),
          LoginStep.navigate
            (opts.sdkUrl.getD "undefined" ++ "/start" ++ "#"
              ++ ("loginId" ++ "=" ++ loginId))]) := by
  simp [OpenLogin.login, hp, hm, constructURL, joinHashParams]

/-- C9 amended witness: with the constructed mainnet configuration and
provider google, login navigates to the start URL carrying the
login-request key in the hash and resolves with undefined. -/
theorem login_redirect_navigates_with_loginId_witness :
    OpenLogin.login redirectExampleOptions
        (some { loginProvider := some "google", redirectUrl := some "https://cb.example" })
        "lid9" true
      = (LoginOutcome.resolved none,
         [LoginStep.createSession "lid9"
            { loginProvider := some "google", redirectUrl := some "https://cb.example" },
          LoginStep.navigate "https://app.openlogin.com/start#loginId=lid9"]) :=
  login_redirect_navigates_with_loginId redirectExampleOptions
    { loginProvider := some "google", redirectUrl := some "https://cb.example" }
    "lid9" rfl rfl

/-- C10 Logout is atomic on invalidation failure: for every state with an
active session key, when invalidateSession fails, logout rethrows that
failure after attempting the invalidation, and both the in-memory state
and the storage are returned exactly as they were before the call. -/
theorem logout_atomic_on_invalidate_failure (sessionKey : Option String) (e : String)
    (st : OpenloginSessionData) (storage : Storage)
    (hkey : truthyStr sessionKey = true) :
    OpenLogin.logout sessionKey (Except.error e) st storage
      = (Except.error e, st, storage, true) := by
  simp [OpenLogin.logout, hkey]

/-- C10 witness: a failing invalidateSession leaves state and storage
unchanged and the failure propagates. -/
theorem logout_atomic_on_invalidate_failure_witness :
    OpenLogin.logout (some "sess-2") (Except.error "network down")
        { privKey := some "aa" } [("sessionId", "sess-2")]
      = (Except.error "network down", { privKey := some "aa" },
         [("sessionId", "sess-2")], true) :=
  logout_atomic_on_invalidate_failure (some "sess-2") "network down"
    { privKey := some "aa" } [("sessionId", "sess-2")] rfl
